import Mathlib

/-!
Verification of the musiclib GUI core: the caret-delimited flat-file
record store (`LibraryModel`), its display transforms, the debounced
file-change reload machinery, and the external-script exit-code
classification (`ScriptRunner`, `MaintenancePanel`).

Each definition is a shallow embedding of one C++ function from the
repository, translated line by line; theorems at the end of the file
settle the specification claims against these definitions.
-/

namespace Musiclib

/-- One row of the flat file (struct `TrackRecord`, librarymodel.h):
13 string fields in file order. -/
structure TrackRecord where
  id             : String
  artist         : String
  idAlbum        : String
  album          : String
  albumArtist    : String
  songTitle      : String
  songPath       : String
  genre          : String
  songLength     : String
  rating         : String
  custom2        : String
  groupDesc      : String
  lastTimePlayed : String
deriving DecidableEq, Repr

/-- `TrackColumn::COUNT` — the fixed field count per row. -/
def fieldCount : Nat := 13

/-- Model of `QString::trimmed()`: strip leading and trailing whitespace
from a character list.  (Qt strips `QChar::isSpace` characters; the model
uses `Char.isWhitespace`, which covers the whitespace that occurs in the
flat file.) -/
def trimChars (cs : List Char) : List Char :=
  ((cs.dropWhile Char.isWhitespace).reverse.dropWhile Char.isWhitespace).reverse

/-- `QString::trimmed()` on strings. -/
def strTrim (s : String) : String :=
  ⟨trimChars s.data⟩

/-- Worker for `splitOnChar`: `acc` holds the current (reversed) chunk. -/
def splitOnCharAux (d : Char) : List Char → List Char → List (List Char)
  | [], acc => [acc.reverse]
  | c :: rest, acc =>
    if c = d then acc.reverse :: splitOnCharAux d rest []
    else splitOnCharAux d rest (c :: acc)

/-- Model of `QString::split(QChar)` with Qt's default KeepEmptyParts
behaviour: empty parts between consecutive delimiters are kept, and the
empty string splits to a single empty part. -/
def splitOnChar (d : Char) (cs : List Char) : List (List Char) :=
  splitOnCharAux d cs []

/-- `line.split(DSV_DELIMITER)` where `DSV_DELIMITER = '^'`. -/
def splitFields (line : String) : List String :=
  (splitOnChar '^' line.data).map fun cs => (⟨cs⟩ : String)

/-- Model of `QString::endsWith`. -/
def strEndsWith (s suffix : String) : Bool :=
  suffix.data.isSuffixOf s.data

/-- The padding loop in `LibraryModel::parseFile`:
`while (fields.size() < COUNT) fields.append(QString());` —
right-pad the field list with empty strings up to 13 entries. -/
def padFields (fields : List String) : List String :=
  fields ++ List.replicate (fieldCount - fields.length) ""

/-- The field-assignment block of `LibraryModel::parseFile`: build a
`TrackRecord` from the (already padded) field list, reading positions
0..12.  `getD i ""` coincides with the C++ `fields[i]` because padding
guarantees at least 13 entries. -/
def mkTrack (fields : List String) : TrackRecord where
  id             := fields.getD 0 ""
  artist         := fields.getD 1 ""
  idAlbum        := fields.getD 2 ""
  album          := fields.getD 3 ""
  albumArtist    := fields.getD 4 ""
  songTitle      := fields.getD 5 ""
  songPath       := fields.getD 6 ""
  genre          := fields.getD 7 ""
  songLength     := fields.getD 8 ""
  rating         := fields.getD 9 ""
  custom2        := fields.getD 10 ""
  groupDesc      := fields.getD 11 ""
  lastTimePlayed := fields.getD 12 ""

/-- The record a single data line produces: trim, split on the caret,
pad, assign. -/
def recordOfLine (trimmedLine : String) : TrackRecord :=
  mkTrack (padFields (splitFields trimmedLine))

/-- The line loop of `LibraryModel::parseFile`.  `firstLine` mirrors the
local `bool firstLine`: each line is trimmed (Qt `trimmed()`; modelled by
`String.trim` — both strip surrounding whitespace), an empty result is
skipped before the header check, the first non-blank line clears the
flag and is discarded, and every later non-blank line becomes a record
in file order. -/
def parseLines : List String → Bool → List TrackRecord
  | [], _ => []
  | l :: rest, firstLine =>
    let line := strTrim l
    if line.data.isEmpty then parseLines rest firstLine
    else if firstLine then parseLines rest false
    else recordOfLine line :: parseLines rest firstLine

/-- The UI-visible events `LibraryModel` can emit while loading.  The C++
signal is `loadError(tr("Cannot open database file: %1").arg(path))`; the
event is modelled as carrying the offending path. -/
inductive LibEvent where
  | loadError (path : String)
deriving DecidableEq, Repr

/-- The mutable state of `LibraryModel` relevant to loading: the current
record set `m_tracks` and the watched path `m_dsvPath`. -/
structure LibState where
  tracks  : List TrackRecord
  dsvPath : String
deriving DecidableEq, Repr

/-- The file system, as the model sees it: a path either fails to open
(`none`, the `!file.open(...)` branch) or yields its list of lines. -/
def FileSystem : Type := String → Option (List String)

/-- `LibraryModel::parseFile`: on open failure emit `loadError` and leave
the state untouched; on success replace `m_tracks` wholesale with the
freshly parsed record list (even when it is empty) and emit nothing. -/
def parseFile (fs : FileSystem) (path : String) (st : LibState) :
    LibState × Option LibEvent :=
  match fs path with
  | none => (st, some (LibEvent.loadError path))
  | some lines => ({ st with tracks := parseLines lines true }, none)

/-- `LibraryModel::loadFromFile`: record the path, re-parse, and return
`!m_tracks.isEmpty()` — true exactly when the resulting record set is
non-empty.  (The watcher re-attach has no bearing on the loaded data and
is not modelled here.) -/
def loadFromFile (fs : FileSystem) (path : String) (st : LibState) :
    (LibState × Option LibEvent) × Bool :=
  let st1 := { st with dsvPath := path }
  let res := parseFile fs path st1
  (res, !res.1.tracks.isEmpty)

/-- `LibraryModel::reloadDebounced` (the debounce-timer timeout slot):
re-parse the remembered path. -/
def reloadDebounced (fs : FileSystem) (st : LibState) :
    LibState × Option LibEvent :=
  parseFile fs st.dsvPath st

/-- Trimmed non-blank lines of a file, in order — the lines that survive
the `if (line.isEmpty()) continue;` filter. -/
def nonBlankLines (lines : List String) : List String :=
  (lines.map strTrim).filter (fun l => !l.data.isEmpty)

/-- The 13 fields of a record, in column order, as a list. -/
def trackFields (t : TrackRecord) : List String :=
  [t.id, t.artist, t.idAlbum, t.album, t.albumArtist, t.songTitle,
   t.songPath, t.genre, t.songLength, t.rating, t.custom2, t.groupDesc,
   t.lastTimePlayed]

/-- Digit-string value, most significant digit first. -/
def digitsVal (ds : List Char) : Nat :=
  ds.foldl (fun a c => a * 10 + (c.toNat - 48)) 0

/-- Model of `QString::toInt(&ok)` (base 10): surrounding whitespace is
ignored, an optional sign precedes one or more decimal digits, anything
else (including the empty string) fails, and a value outside the 32-bit
`int` range fails (Qt reports overflow through `ok = false`).  `none`
stands for `ok == false`. -/
def qtToInt (s : String) : Option Int :=
  let cs := trimChars s.data
  let neg : Bool := match cs with
    | '-' :: _ => true
    | _ => false
  let body : List Char := match cs with
    | '-' :: rest => rest
    | '+' :: rest => rest
    | _ => cs
  if body.isEmpty || !body.all Char.isDigit then none
  else
    let n : Int := (digitsVal body : Nat)
    let v : Int := if neg then -n else n
    if v < -2147483648 || 2147483647 < v then none else some v

/-- Model of `QString::toDouble(&ok)` restricted to plain decimal
notation (optional sign, digits, optional fractional part — the only
shapes a serial day-count field takes; scientific notation is not
modelled).  The value is kept exact as a rational.  `none` stands for
`ok == false`. -/
def qtToRat (s : String) : Option ℚ :=
  let cs := trimChars s.data
  let neg : Bool := match cs with
    | '-' :: _ => true
    | _ => false
  let body : List Char := match cs with
    | '-' :: rest => rest
    | '+' :: rest => rest
    | _ => cs
  let q? : Option ℚ :=
    match splitOnChar '.' body with
    | [ip] =>
      if ip.isEmpty || !ip.all Char.isDigit then none
      else some ((digitsVal ip : Nat) : ℚ)
    | [ip, fp] =>
      if (ip.isEmpty && fp.isEmpty) || !ip.all Char.isDigit
          || !fp.all Char.isDigit then none
      else some (((digitsVal ip : Nat) : ℚ)
        + ((digitsVal fp : Nat) : ℚ) / ((10 : ℚ) ^ fp.length))
    | _ => none
  q?.map (fun q => if neg then -q else q)

/-- Truncation toward zero, the semantics of C++ `static_cast<qint64>`
applied to a (here: exact) real value. -/
def truncZero (q : ℚ) : ℤ :=
  if 0 ≤ q then ⌊q⌋ else ⌈q⌉

/-- Two-digit zero padding: `QString::arg(n, 2, 10, QChar('0'))` for the
seconds value `0 ≤ n < 60`. -/
def pad2 (n : Nat) : String :=
  if n < 10 then "0" ++ toString n else toString n

/-- `LibraryModel::formatDuration`: parse the millisecond field with
`toInt`; on failure or a non-positive value return the input unchanged;
otherwise render whole minutes, a colon, and zero-padded seconds. -/
def formatDuration (ms : String) : String :=
  match qtToInt ms with
  | none => ms
  | some total =>
    if total ≤ 0 then ms
    else
      let secs := total.toNat / 1000
      toString (secs / 60) ++ ":" ++ pad2 (secs % 60)

/-- `LibraryModel::formatLastPlayed`: parse the serial day-count with
`toDouble`; on failure or a non-positive value return the empty string
(`QString()`); otherwise compute
`unixSecs = trunc((serial - 25569) * 86400)` and render the calendar
date of that Unix time.  The calendar rendering (`QDateTime` +
`"MM/dd/yy"`) is kept abstract: `some u` means "the date string derived
from Unix seconds `u`", `none` means the empty string. -/
def formatLastPlayed (serialTime : String) : Option Int :=
  match qtToRat serialTime with
  | none => none
  | some serial =>
    if serial ≤ 0 then none
    else some (truncZero ((serial - 25569) * 86400))

/-- The text that actually lands in the table cell, given a rendering
function for the date case: `none` displays as the empty string. -/
def lastPlayedCell (serialTime : String) (render : Int → String) : String :=
  match formatLastPlayed serialTime with
  | none => ""
  | some u => render u

/-- Outcome of `ScriptRunner::onRateProcessFinished` — the three rating
signals. -/
inductive RateOutcome where
  | rateSuccess
  | rateDeferred
  | rateError (msg : String)
deriving DecidableEq, Repr

/-- `ScriptRunner::onRateProcessFinished`: exit 0 emits `rateSuccess`,
exit 3 emits `rateDeferred`, any other code emits `rateError` with the
trimmed captured stderr, falling back to "Script exited with code N"
when stderr is empty. -/
def onRateProcessFinished (exitCode : Int) (stderrText : String) :
    RateOutcome :=
  if exitCode = 0 then RateOutcome.rateSuccess
  else if exitCode = 3 then RateOutcome.rateDeferred
  else
    let t := strTrim stderrText
    let msg := if t.data.isEmpty
               then "Script exited with code " ++ toString exitCode
               else t
    RateOutcome.rateError msg

/-- Outcome logged by `MaintenancePanel::onScriptFinished` for a
finished generic operation. -/
inductive MaintOutcome where
  | completed
  | deferredQueued
  | previewComplete
  | prelaunch (msg : String)
  | crashed
  | failed (code : Int) (stderrText : String)
deriving DecidableEq, Repr

/-- `MaintenancePanel::onScriptFinished`: the if/else chain classifying
the exit code of a finished generic script.  Exit 0 → completed; 3 →
deferred (queued writes); 1 on an operation id ending in "-preview" →
informational preview completion; -1 → pre-launch error (busy or script
not found, message in stderr); -2 → crash; anything else → failure
logged with the exit code and captured stderr. -/
def onScriptFinished (operationId : String) (exitCode : Int)
    (stderrContent : String) : MaintOutcome :=
  if exitCode = 0 then MaintOutcome.completed
  else if exitCode = 3 then MaintOutcome.deferredQueued
  else if exitCode = 1 ∧ strEndsWith operationId "-preview" then
    MaintOutcome.previewComplete
  else if exitCode = -1 then MaintOutcome.prelaunch stderrContent
  else if exitCode = -2 then MaintOutcome.crashed
  else MaintOutcome.failed exitCode stderrContent

/-- The `ScriptRunner` state relevant to the one-generic-operation gate:
whether `m_scriptProcess` is live and the current operation id. -/
structure RunnerState where
  running     : Bool
  currentOpId : String
deriving DecidableEq, Repr

/-- Events `ScriptRunner::runScript` can produce synchronously: an
immediate `scriptFinished` rejection, or the start of a process. -/
inductive RunEvent where
  | scriptFinished (opId : String) (code : Int) (msg : String)
  | started (opId : String)
deriving DecidableEq, Repr

/-- The rejection message of the busy gate in `ScriptRunner::runScript`. -/
def busyMessage : String :=
  "Another operation is already running.  Wait for it to finish or cancel it."

/-- `ScriptRunner::runScript`: if a generic operation is already running,
emit `scriptFinished(operationId, -1, busyMessage)` at once and leave the
state (hence the running process) untouched; if the script cannot be
resolved, reject likewise; otherwise record the operation and start the
process. -/
def runScript (resolve : String → Option String) (st : RunnerState)
    (operationId scriptName : String) : RunnerState × RunEvent :=
  if st.running then
    (st, RunEvent.scriptFinished operationId (-1) busyMessage)
  else
    match resolve scriptName with
    | none =>
      (st, RunEvent.scriptFinished operationId (-1)
        (scriptName ++ " not found in ~/musiclib/bin or /usr/lib/musiclib/bin"))
    | some _ =>
      ({ running := true, currentOpId := operationId },
       RunEvent.started operationId)

/-- The debounce interval: `m_debounceTimer->setInterval(500)`. -/
def debounceIntervalMs : Nat := 500

/-- Reload times produced by the debounce machinery for a sorted list of
file-change notification times.  The timer is single-shot with a 500 ms
interval and `onFileChanged` calls `start()`, which restarts it: after a
notification at time `t` the timer is armed for `t + 500`; a further
notification before that deadline re-arms it, while quiescence lets it
fire and trigger exactly one re-parse (`reloadDebounced`). -/
def reloadTimes : List Nat → List Nat
  | [] => []
  | [t] => [t + debounceIntervalMs]
  | t :: t2 :: rest =>
    if t2 < t + debounceIntervalMs then reloadTimes (t2 :: rest)
    else (t + debounceIntervalMs) :: reloadTimes (t2 :: rest)

/-! ## Helper lemmas -/

/-- Reading back the 13 fields of a record built from a list of at least
13 fields yields exactly the first 13 entries of that list. -/
theorem trackFields_mkTrack_ge (xs : List String) (h : 13 ≤ xs.length) :
    trackFields (mkTrack xs) = xs.take 13 := by
  rcases xs with _|⟨a,_|⟨b,_|⟨c,_|⟨d,_|⟨e,_|⟨f,_|⟨g,_|⟨h0,_|⟨i,_|⟨j,_|⟨k,_|⟨l,_|⟨m,rest⟩⟩⟩⟩⟩⟩⟩⟩⟩⟩⟩⟩⟩
  all_goals (try rfl)
  all_goals (simp only [List.length_nil, List.length_cons] at h; omega)

/-- `padFields` brings every list of at most 13 fields to length
exactly 13. -/
theorem padFields_length (fields : List String) (h : fields.length ≤ 13) :
    (padFields fields).length = 13 := by
  simp [padFields, fieldCount]
  omega

/-- Once the header flag is cleared, the parser turns every trimmed
non-blank line into a record, in order. -/
theorem parseLines_false (lines : List String) :
    parseLines lines false = (nonBlankLines lines).map recordOfLine := by
  induction lines with
  | nil => rfl
  | cons l rest ih =>
    cases hEmpty : (strTrim l).data.isEmpty with
    | true => simp [parseLines, nonBlankLines, hEmpty, ih]
    | false => simp [parseLines, nonBlankLines, hEmpty, ih]

/-! ## Claim theorems -/

/-- C6: for every input file, the first non-blank (after trimming) line
is discarded as a header regardless of its content and never becomes a
record, while every later non-blank line becomes a record in file
order — the parse result is exactly the per-line records of all trimmed
non-blank lines except the first. -/
theorem C6_header_skip (lines : List String) :
    parseLines lines true = ((nonBlankLines lines).drop 1).map recordOfLine := by
  induction lines with
  | nil => rfl
  | cons l rest ih =>
    cases hEmpty : (strTrim l).data.isEmpty with
    | true => simp [parseLines, nonBlankLines, hEmpty, ih]
    | false => simp [parseLines, nonBlankLines, hEmpty, parseLines_false]

/-- C7: a non-blank data line with fewer than 13 caret-separated fields
parses successfully into a record (here: a one-data-line file yields
exactly that record), whose fields are the line's fields in position
followed by empty strings for every missing trailing field. -/
theorem C7_short_row_padding (l : String)
    (hNonBlank : (strTrim l).data.isEmpty = false)
    (hShort : (splitFields (strTrim l)).length < 13) :
    parseLines ["header", l] true = [recordOfLine (strTrim l)] ∧
    trackFields (recordOfLine (strTrim l)) =
      splitFields (strTrim l)
        ++ List.replicate (13 - (splitFields (strTrim l)).length) "" := by
  constructor
  · simp [parseLines, hNonBlank]
    decide
  · have hlen : (padFields (splitFields (strTrim l))).length = 13 :=
      padFields_length _ (by omega)
    have := trackFields_mkTrack_ge (padFields (splitFields (strTrim l))) (by omega)
    rw [recordOfLine, this, List.take_of_length_le (by omega)]
    rfl

/-- C7 witness: the two-field line "a^b" below 13 fields loads as a
single record padded with 11 empty trailing fields. -/
theorem C7_short_row_padding_witness :
    parseLines ["header", "a^b"] true = [recordOfLine (strTrim "a^b")] ∧
    trackFields (recordOfLine (strTrim "a^b")) =
      splitFields (strTrim "a^b")
        ++ List.replicate (13 - (splitFields (strTrim "a^b")).length) "" :=
  C7_short_row_padding "a^b" rfl (by decide)

/-- C10: a non-blank data line with more than 13 caret-separated fields
parses successfully into a record built from the first 13 fields only;
every field beyond the 13th is discarded. -/
theorem C10_long_row_truncation (l : String)
    (hNonBlank : (strTrim l).data.isEmpty = false)
    (hLong : 13 < (splitFields (strTrim l)).length) :
    parseLines ["id^artist^album", l] true = [recordOfLine (strTrim l)] ∧
    trackFields (recordOfLine (strTrim l)) =
      (splitFields (strTrim l)).take 13 := by
  constructor
  · simp [parseLines, hNonBlank]
    decide
  · have h0 : 13 - (splitFields (strTrim l)).length = 0 := by omega
    have hpad : padFields (splitFields (strTrim l)) = splitFields (strTrim l) := by
      simp [padFields, fieldCount, h0]
    rw [recordOfLine, hpad, trackFields_mkTrack_ge _ (by omega)]

/-- C10 witness: a 15-field line loads as a single record carrying only
its first 13 fields. -/
theorem C10_long_row_truncation_witness :
    parseLines ["id^artist^album", "a^b^c^d^e^f^g^h^i^j^k^l^m^n^o"] true
      = [recordOfLine (strTrim "a^b^c^d^e^f^g^h^i^j^k^l^m^n^o")] ∧
    trackFields (recordOfLine (strTrim "a^b^c^d^e^f^g^h^i^j^k^l^m^n^o")) =
      (splitFields (strTrim "a^b^c^d^e^f^g^h^i^j^k^l^m^n^o")).take 13 :=
  C10_long_row_truncation "a^b^c^d^e^f^g^h^i^j^k^l^m^n^o" rfl (by decide)

/-- C1 counterexample: a file holding only a header line opens fine and
parses to zero data rows; the record set is replaced by the empty set
and no error is signalled, yet `loadFromFile` returns `false` — it does
NOT report success for such a file, refuting the claim as stated. -/
theorem C1_counterexample :
    (loadFromFile (fun _ => some ["header"]) "db.dsv"
      ⟨[recordOfLine "a^b"], "old.dsv"⟩).1.1.tracks = [] ∧
    (loadFromFile (fun _ => some ["header"]) "db.dsv"
      ⟨[recordOfLine "a^b"], "old.dsv"⟩).1.2 = none ∧
    (loadFromFile (fun _ => some ["header"]) "db.dsv"
      ⟨[recordOfLine "a^b"], "old.dsv"⟩).2 = false :=
  ⟨rfl, rfl, rfl⟩

/-- C1 (amended): for every backing file that opens successfully but
contains zero data rows, the parse is not an error — the current record
set is replaced by the empty set and no load-error event is emitted —
but `loadFromFile` returns `false` (its return value reports whether the
resulting record set is non-empty, not whether the load succeeded). -/
theorem C1_empty_load (fs : FileSystem) (path : String) (st : LibState)
    (lines : List String) (hOpen : fs path = some lines)
    (hEmpty : parseLines lines true = []) :
    loadFromFile fs path st = ((⟨[], path⟩, none), false) := by
  simp [loadFromFile, parseFile, hOpen, hEmpty]

/-- C1 witness: loading a header-only file over a non-empty record set
empties the set, emits no error, and returns `false`. -/
theorem C1_empty_load_witness :
    loadFromFile (fun _ => some ["header"]) "db.dsv"
      ⟨[recordOfLine "a^b"], "old.dsv"⟩ = ((⟨[], "db.dsv"⟩, none), false) :=
  C1_empty_load (fun _ => some ["header"]) "db.dsv"
    ⟨[recordOfLine "a^b"], "old.dsv"⟩ ["header"] rfl rfl

/-- C2: when the backing file cannot be opened, `parseFile` (used both
by `loadFromFile` and by the debounced re-parse) emits a load-error
event carrying the path and leaves the state — in particular the
in-memory record set — completely unchanged. -/
theorem C2_open_failure_atomic :
    (∀ (fs : FileSystem) (path : String) (st : LibState), fs path = none →
      parseFile fs path st = (st, some (LibEvent.loadError path))) ∧
    (∀ (fs : FileSystem) (path : String) (st : LibState), fs path = none →
      (loadFromFile fs path st).1.1.tracks = st.tracks ∧
      (loadFromFile fs path st).1.2 = some (LibEvent.loadError path)) ∧
    (∀ (fs : FileSystem) (st : LibState), fs st.dsvPath = none →
      reloadDebounced fs st = (st, some (LibEvent.loadError st.dsvPath))) := by
  refine ⟨fun fs path st h => ?_, fun fs path st h => ?_, fun fs st h => ?_⟩
  · simp [parseFile, h]
  · simp [loadFromFile, parseFile, h]
  · simp [reloadDebounced, parseFile, h]

/-- C2 witness: with a file system where no path opens, both a fresh
load and a debounced re-parse over a one-record state report the error
with the path and keep the record untouched. -/
theorem C2_open_failure_atomic_witness :
    parseFile (fun _ => none) "db.dsv" ⟨[recordOfLine "a^b"], "db.dsv"⟩
      = (⟨[recordOfLine "a^b"], "db.dsv"⟩, some (LibEvent.loadError "db.dsv")) ∧
    reloadDebounced (fun _ => none) ⟨[recordOfLine "a^b"], "db.dsv"⟩
      = (⟨[recordOfLine "a^b"], "db.dsv"⟩, some (LibEvent.loadError "db.dsv")) :=
  ⟨C2_open_failure_atomic.1 (fun _ => none) "db.dsv"
      ⟨[recordOfLine "a^b"], "db.dsv"⟩ rfl,
   C2_open_failure_atomic.2.2 (fun _ => none)
      ⟨[recordOfLine "a^b"], "db.dsv"⟩ rfl⟩

/-- C3 counterexample: the serial value "0" (non-positive) displays as
the empty string — `formatLastPlayed` returns `QString()` — and the
empty string is not the text "never played", refuting the claim's
display value as stated. -/
theorem C3_counterexample :
    formatLastPlayed "0" = none ∧
    lastPlayedCell "0" (fun u => toString u) = "" ∧
    ("" : String) ≠ "never played" :=
  ⟨rfl, rfl, by decide⟩

/-- C3 (amended): a serial field that fails numeric parsing or parses to
a non-positive value displays as the empty string (not a date, and not
the text "never played"); a positive parsable serial displays the
calendar date derived from
`unix_seconds = trunc((serial - 25569) * 86400)`. -/
theorem C3_last_played_formatting :
    (∀ (s : String) (render : Int → String), qtToRat s = none →
      formatLastPlayed s = none ∧ lastPlayedCell s render = "") ∧
    (∀ (s : String) (render : Int → String) (q : ℚ), qtToRat s = some q →
      q ≤ 0 → formatLastPlayed s = none ∧ lastPlayedCell s render = "") ∧
    (∀ (s : String) (render : Int → String) (q : ℚ), qtToRat s = some q →
      0 < q →
      formatLastPlayed s = some (truncZero ((q - 25569) * 86400)) ∧
      lastPlayedCell s render = render (truncZero ((q - 25569) * 86400))) := by
  refine ⟨fun s render h => ?_, fun s render q h hq => ?_,
    fun s render q h hq => ?_⟩
  · simp [formatLastPlayed, lastPlayedCell, h]
  · simp [formatLastPlayed, lastPlayedCell, h, hq]
  · simp [formatLastPlayed, lastPlayedCell, h, not_le.mpr hq]

/-- C3 witness: the serial "25570" (one day past the Unix epoch in the
serial convention) parses positively and displays the date derived from
`(25570 - 25569) * 86400` Unix seconds. -/
theorem C3_last_played_formatting_witness :
    formatLastPlayed "25570" =
      some (truncZero ((((25570 : Nat) : ℚ) - 25569) * 86400)) ∧
    lastPlayedCell "25570" (fun u => toString u) =
      toString (truncZero ((((25570 : Nat) : ℚ) - 25569) * 86400)) :=
  C3_last_played_formatting.2.2 "25570" (fun u => toString u)
    ((25570 : Nat) : ℚ) rfl (by norm_num)

/-- C8: the duration transform formats the parsable positive
millisecond value "125000" as "2:05" (whole minutes, colon, zero-padded
seconds), returns "0" and non-numeric text unchanged, and in general
renders any parsable positive value as `minutes:zero-padded seconds` of
`value / 1000` seconds. -/
theorem C8_duration_formatting :
    formatDuration "125000" = "2:05" ∧
    formatDuration "0" = "0" ∧
    (∀ s : String, qtToInt s = none → formatDuration s = s) ∧
    (∀ (s : String) (n : Int), qtToInt s = some n → n ≤ 0 →
      formatDuration s = s) ∧
    (∀ (s : String) (n : Int), qtToInt s = some n → 0 < n →
      formatDuration s =
        toString ((n.toNat / 1000) / 60) ++ ":" ++ pad2 ((n.toNat / 1000) % 60)) := by
  refine ⟨rfl, rfl, fun s h => ?_, fun s n h hn => ?_, fun s n h hn => ?_⟩
  · simp [formatDuration, h]
  · simp [formatDuration, h, hn]
  · simp [formatDuration, h, not_le.mpr hn]

/-- C8 witness: "125000" parses to the positive value 125000 and the
general positive case instantiates to its "2:05" rendering. -/
theorem C8_duration_formatting_witness :
    formatDuration "125000" =
      toString (((125000 : Int).toNat / 1000) / 60) ++ ":"
        ++ pad2 (((125000 : Int).toNat / 1000) % 60) :=
  C8_duration_formatting.2.2.2.2 "125000" 125000 rfl (by norm_num)

/-- C4 counterexample: a completed generic invocation with exit code 1
and an operation id ending in "-preview" is classified by the
maintenance handler as informational preview completion, not as an
error event carrying the captured stderr — refuting the claimed
three-way classification for every invocation. -/
theorem C4_counterexample :
    onScriptFinished "build-preview" 1 "boom" = MaintOutcome.previewComplete ∧
    onScriptFinished "build-preview" 1 "boom" ≠ MaintOutcome.failed 1 "boom" :=
  ⟨by decide, by decide⟩

/-- C4 (amended): the rating flow classifies exit codes exactly three
ways — 0 → success, 3 → deferred, any other code → error carrying the
trimmed captured stderr, or a fallback message naming the exit code
when stderr is blank.  The maintenance log handler also maps 0 →
success and 3 → deferred, but additionally treats exit code 1 of a
"-preview" operation as informational preview completion, -1 as a
pre-launch failure message, and -2 as a crash; only the remaining
nonzero codes are logged as failures with the captured stderr. -/
theorem C4_exit_code_classification :
    (∀ e : String, onRateProcessFinished 0 e = RateOutcome.rateSuccess) ∧
    (∀ e : String, onRateProcessFinished 3 e = RateOutcome.rateDeferred) ∧
    (∀ (c : Int) (e : String), c ≠ 0 → c ≠ 3 →
      (strTrim e).data.isEmpty = false →
      onRateProcessFinished c e = RateOutcome.rateError (strTrim e)) ∧
    (∀ (c : Int) (e : String), c ≠ 0 → c ≠ 3 →
      (strTrim e).data.isEmpty = true →
      onRateProcessFinished c e =
        RateOutcome.rateError ("Script exited with code " ++ toString c)) ∧
    (∀ op e : String, onScriptFinished op 0 e = MaintOutcome.completed) ∧
    (∀ op e : String, onScriptFinished op 3 e = MaintOutcome.deferredQueued) ∧
    (∀ op e : String, strEndsWith op "-preview" = true →
      onScriptFinished op 1 e = MaintOutcome.previewComplete) ∧
    (∀ op e : String, onScriptFinished op (-1) e = MaintOutcome.prelaunch e) ∧
    (∀ op e : String, onScriptFinished op (-2) e = MaintOutcome.crashed) ∧
    (∀ (op : String) (c : Int) (e : String), c ≠ 0 → c ≠ 3 →
      c ≠ -1 → c ≠ -2 → ¬(c = 1 ∧ strEndsWith op "-preview") →
      onScriptFinished op c e = MaintOutcome.failed c e) := by
  refine ⟨fun e => rfl, fun e => rfl, fun c e h0 h3 he => ?_,
    fun c e h0 h3 he => ?_, fun op e => rfl, fun op e => rfl,
    fun op e hp => ?_, fun op e => rfl, fun op e => rfl,
    fun op c e h0 h3 h1 h2 hp => ?_⟩
  · simp [onRateProcessFinished, h0, h3, he]
  · simp [onRateProcessFinished, h0, h3, he]
  · simp [onScriptFinished, hp]
  · simp [onScriptFinished, h0, h3, h1, h2, hp]

/-- C4 witness: concrete classifications — exit 2 with stderr "boom"
yields a rating error carrying "boom"; exit 1 of "tagclean-preview" is
preview completion; exit 2 of "rebuild" with stderr "oops" is logged as
a failure with that stderr. -/
theorem C4_exit_code_classification_witness :
    onRateProcessFinished 2 " boom " = RateOutcome.rateError (strTrim " boom ") ∧
    onScriptFinished "tagclean-preview" 1 "" = MaintOutcome.previewComplete ∧
    onScriptFinished "rebuild" 2 "oops" = MaintOutcome.failed 2 "oops" :=
  ⟨C4_exit_code_classification.2.2.1 2 " boom " (by decide) (by decide) rfl,
   C4_exit_code_classification.2.2.2.2.2.2.1 "tagclean-preview" "" rfl,
   C4_exit_code_classification.2.2.2.2.2.2.2.2.2 "rebuild" 2 "oops"
     (by decide) (by decide) (by decide) (by decide) (by decide)⟩

/-- C9: while a generic operation is running, any attempt to start
another one is rejected at once — the caller receives an immediate
`scriptFinished(opId, -1, busy message)` for the new request — and the
runner state, hence the already-running operation, is left untouched
(the request is not queued). -/
theorem C9_busy_rejection (resolve : String → Option String)
    (st : RunnerState) (operationId scriptName : String)
    (hBusy : st.running = true) :
    runScript resolve st operationId scriptName
      = (st, RunEvent.scriptFinished operationId (-1) busyMessage) := by
  simp [runScript, hBusy]

/-- C9 witness: a second operation "sync" requested while "rebuild" is
running is rejected with the busy message and the state keeps running
"rebuild". -/
theorem C9_busy_rejection_witness :
    runScript (fun _ => some "/usr/lib/musiclib/bin/s.sh")
      ⟨true, "rebuild"⟩ "sync" "s.sh"
      = (⟨true, "rebuild"⟩, RunEvent.scriptFinished "sync" (-1) busyMessage) :=
  C9_busy_rejection (fun _ => some "/usr/lib/musiclib/bin/s.sh")
    ⟨true, "rebuild"⟩ "sync" "s.sh" rfl

/-- C5: debounce coalescing.  For a burst of N ≥ 1 notifications in
which each arrives within the 500 ms quiescence window of the previous
one, exactly one re-parse happens, 500 ms after the last notification
(each notification while pending only re-arms the timer); when every
gap exceeds the window, each notification triggers exactly one
re-parse, 500 ms after itself. -/
theorem C5_debounce_coalescing :
    (∀ (t : Nat) (rest : List Nat),
      List.Chain' (fun a b => b < a + debounceIntervalMs) (t :: rest) →
      reloadTimes (t :: rest) = [rest.getLastD t + debounceIntervalMs]) ∧
    (∀ l : List Nat,
      List.Chain' (fun a b => a + debounceIntervalMs < b) l →
      reloadTimes l = l.map (fun t => t + debounceIntervalMs)) := by
  constructor
  · intro t rest
    induction rest generalizing t with
    | nil => intro _; rfl
    | cons t2 rs ih =>
      intro h
      rw [List.chain'_cons] at h
      have hlt : t2 < t + debounceIntervalMs := h.1
      calc reloadTimes (t :: t2 :: rs)
          = reloadTimes (t2 :: rs) := by
            simp only [reloadTimes, if_pos hlt]
        _ = [rs.getLastD t2 + debounceIntervalMs] := ih t2 h.2
        _ = [(t2 :: rs).getLastD t + debounceIntervalMs] := by
            rw [List.getLastD_cons]
  · intro l
    induction l with
    | nil => intro _; rfl
    | cons t rest ih =>
      cases rest with
      | nil => intro _; rfl
      | cons t2 rs =>
        intro h
        rw [List.chain'_cons] at h
        have hge : ¬ t2 < t + debounceIntervalMs := by
          have := h.1
          omega
        simp only [reloadTimes, if_neg hge, List.map_cons]
        exact congrArg _ (ih h.2)

/-- C5 witness: three notifications 100 ms apart coalesce into a single
reload 500 ms after the last; three notifications 600 ms apart produce
one reload each. -/
theorem C5_debounce_coalescing_witness :
    reloadTimes [0, 100, 200] = [[100, 200].getLastD 0 + debounceIntervalMs] ∧
    reloadTimes [0, 600, 1200] =
      [0, 600, 1200].map (fun t => t + debounceIntervalMs) :=
  ⟨C5_debounce_coalescing.1 0 [100, 200]
      (by norm_num [List.chain'_cons, debounceIntervalMs]),
   C5_debounce_coalescing.2 [0, 600, 1200]
      (by norm_num [List.chain'_cons, debounceIntervalMs])⟩

end Musiclib
